import Mathlib

/-!
Verification of the pyspark-style-guide checkers.

This file gives a shallow embedding of the two pylint checkers of the
repository and proves their externally observable contract.

Part 1 embeds src/checkers/pyspark_function_aliases.py: the module-level
constants NAME, ALIASES and msgs, the checker construction, and the
visit_call method.  Python's module-level dict ALIASES is mutable in
principle, so it is threaded through the checker state explicitly; the
source never writes to it, and we prove that.  Python attribute access
node.func.attrname raises AttributeError when the callee expression is not
an attribute node, so visit_call is embedded with an Except result.

Part 2 models the Unique-Return Checker, whose implementation file
(checker.py) is not part of the sources, from its specification.
-/

namespace PysparkStyleGuide

/-- The shape of the callee expression of a call node, as astroid presents
it: an attribute access such as df.filter (which carries an attrname), a
bare name such as f (no attrname attribute), or any other dynamically
computed callable (a subscript, a lambda, a nested call, ...). -/
inductive FuncExpr where
  | attribute (attrname : String)
  | bareName (id : String)
  | dynamic
deriving DecidableEq, Repr

/-- A call-expression node: its callee expression and its source position
(line, column span), read-only to the checker. -/
structure CallNode where
  func : FuncExpr
  line : Nat
  col_offset : Nat
  end_line : Nat
  end_col_offset : Nat
deriving DecidableEq, Repr

/-- Python attribute access node.func.attrname: present only on attribute
nodes, an AttributeError (modelled as Option.none) otherwise. -/
def FuncExpr.attrnameOpt : FuncExpr → Option String
  | .attribute a => some a
  | .bareName _ => none
  | .dynamic => none

/-- NAME, the checker's stable rule identifier (pyspark_function_aliases.py
line 18). -/
def NAME : String := "pyspark-less-desirable-function-alias"

/-- ALIASES, the module-level alias table (pyspark_function_aliases.py
lines 19 to 28), in source order. -/
def ALIASES : List (String × String) :=
  [("filter", "where"),
   ("groupBy", "groupby"),
   ("dropDuplicates", "drop_duplicates"),
   ("cast", "astype"),
   ("name", "alias"),
   ("avg", "mean"),
   ("stddev_sample", "stddev"),
   ("var_sample", "var")]

/-- The keys of an alias table; Python's membership test on a dict
inspects exactly these. -/
def aliasKeys (t : List (String × String)) : List String := t.map Prod.fst

/-- One entry of a pylint msgs declaration: message id, message template,
symbolic name, and description (rationale). -/
structure MsgDef where
  msgid : String
  template : String
  symbol : String
  description : String
deriving DecidableEq, Repr

/-- The msgs declaration of PySparkFunctionAliasChecker
(pyspark_function_aliases.py lines 34 to 40). -/
def msgs : List MsgDef :=
  [⟨"C3901",
    "Calls a less desirable alias for a common PySpark function.",
    NAME,
    "PySpark functions should use the most Pythonic, specific, and concise names when other aliases exist."⟩]

/-- A diagnostic record emitted to the host sink: the rule's symbolic
identifier, the triggering node, and the fixed message and rationale
resolved from the msgs declaration. -/
structure Diagnostic where
  symbol : String
  node : CallNode
  template : String
  description : String
deriving DecidableEq, Repr

/-- pylint's add_message as used by this checker: resolve the symbolic
name in the checker's msgs table and emit one diagnostic for the given
node carrying that entry's template and description. -/
def add_message (symbol : String) (node : CallNode) : List Diagnostic :=
  (msgs.filter (fun m => m.symbol == symbol)).map
    (fun m => ⟨m.symbol, node, m.template, m.description⟩)

/-- The state visible to the alias checker: the module-level ALIASES dict
(mutable in Python, hence threaded explicitly) and the instance attribute
_function_stack set up by __init__. -/
structure AliasCheckerState where
  ALIASES : List (String × String)
  function_stack : List Nat
deriving DecidableEq, Repr

/-- PySparkFunctionAliasChecker.__init__ (lines 42 to 44): the only
instance state set up is an empty _function_stack; the module-level table
is left as found. -/
def PySparkFunctionAliasChecker.init
    (moduleAliases : List (String × String)) : AliasCheckerState :=
  ⟨moduleAliases, []⟩

/-- register (lines 11 to 15) constructs the checker against the
module-level ALIASES as loaded. -/
def register : AliasCheckerState := PySparkFunctionAliasChecker.init ALIASES

/-- The Python exceptions the embedded code can raise. -/
inductive PyError where
  | attributeError
deriving DecidableEq, Repr

/-- visit_call (lines 46 to 48):

  if node.func.attrname in ALIASES:
      self.add_message(NAME, node=node)

node.func.attrname raises AttributeError when node.func is not an
attribute node; otherwise the name is looked up among the keys of ALIASES
and, on a hit, exactly one message is emitted for this node. -/
def visit_call (s : AliasCheckerState) (node : CallNode) :
    Except PyError (AliasCheckerState × List Diagnostic) :=
  match node.func.attrnameOpt with
  | Option.none => .error .attributeError
  | some a =>
    if a ∈ aliasKeys s.ALIASES then .ok (s, add_message NAME node)
    else .ok (s, [])

/-- The diagnostic visit_call emits on a hit, with the strings resolved
from msgs. -/
def aliasDiagnostic (node : CallNode) : Diagnostic :=
  ⟨NAME, node,
   "Calls a less desirable alias for a common PySpark function.",
   "PySpark functions should use the most Pythonic, specific, and concise names when other aliases exist."⟩

/-- The host traversal driving visit_call over successive call nodes in
document order, concatenating emitted diagnostics; a raised exception
aborts the traversal. -/
def processCalls (s : AliasCheckerState) :
    List CallNode → Except PyError (AliasCheckerState × List Diagnostic)
  | [] => .ok (s, [])
  | n :: ns =>
    match visit_call s n with
    | .error e => .error e
    | .ok (s', ds) =>
      match processCalls s' ns with
      | .error e => .error e
      | .ok (s'', ds') => .ok (s'', ds ++ ds')

/-- Concrete call nodes of the test file test_pyspark_function_aliases.py
(df.filter(), df.groupBy(), df.where(), df.groupby()). -/
def dfFilterCall : CallNode := ⟨.attribute "filter", 3, 4, 3, 15⟩

def dfGroupByCall : CallNode := ⟨.attribute "groupBy", 4, 4, 4, 16⟩

def dfWhereCall : CallNode := ⟨.attribute "where", 5, 4, 5, 14⟩

def dfGroupbyCall : CallNode := ⟨.attribute "groupby", 6, 4, 6, 16⟩

/-- A bare function call f(): its callee is a Name node, which has no
attrname attribute. -/
def bareCall : CallNode := ⟨.bareName "f", 1, 0, 1, 3⟩

lemma add_message_NAME_eq (node : CallNode) :
    add_message NAME node = [aliasDiagnostic node] := rfl

lemma visit_call_attr (s : AliasCheckerState) (node : CallNode) (a : String)
    (h : node.func = FuncExpr.attribute a) :
    visit_call s node =
      if a ∈ aliasKeys s.ALIASES then Except.ok (s, [aliasDiagnostic node])
      else Except.ok (s, []) := by
  simp [visit_call, h, FuncExpr.attrnameOpt, add_message_NAME_eq]

/-- Claim C1: the alias table has exactly the eight keys filter, groupBy,
dropDuplicates, cast, name, avg, stddev_sample and var_sample; a call
whose invoked member name is one of them makes visit_call emit exactly one
diagnostic referencing that call node, and a call with any other member
name makes it emit none. -/
theorem alias_table_membership_decides_diagnostic
    (s : AliasCheckerState) (node : CallNode) (a : String)
    (hfunc : node.func = FuncExpr.attribute a) (hs : s.ALIASES = ALIASES) :
    aliasKeys ALIASES =
      ["filter", "groupBy", "dropDuplicates", "cast", "name", "avg",
       "stddev_sample", "var_sample"] ∧
    (a ∈ aliasKeys ALIASES →
      visit_call s node = .ok (s, [aliasDiagnostic node]) ∧
        (aliasDiagnostic node).node = node) ∧
    (a ∉ aliasKeys ALIASES → visit_call s node = .ok (s, [])) := by
  refine ⟨rfl, ?_, ?_⟩ <;> intro h <;>
    rw [visit_call_attr s node a hfunc]
  · rw [if_pos (hs ▸ h)]
    exact ⟨rfl, rfl⟩
  · rw [if_neg (hs ▸ h)]

/-- Witness for C1 at the concrete call df.filter(). -/
theorem alias_table_membership_decides_diagnostic_witness :
    aliasKeys ALIASES =
      ["filter", "groupBy", "dropDuplicates", "cast", "name", "avg",
       "stddev_sample", "var_sample"] ∧
    ("filter" ∈ aliasKeys ALIASES →
      visit_call register dfFilterCall =
          .ok (register, [aliasDiagnostic dfFilterCall]) ∧
        (aliasDiagnostic dfFilterCall).node = dfFilterCall) ∧
    ("filter" ∉ aliasKeys ALIASES →
      visit_call register dfFilterCall = .ok (register, [])) :=
  alias_table_membership_decides_diagnostic register dfFilterCall "filter"
    rfl rfl

/-- Claim C2 (the code raises here): on a bare function call f(), whose
callee is a Name node with no attrname attribute, visit_call evaluates
node.func.attrname and raises AttributeError instead of emitting nothing. -/
theorem visit_call_bare_name_raises :
    visit_call register bareCall = .error .attributeError := rfl

/-- Counterexample to claim C3: the diagnostic emitted for df.filter()
carries the message of the msgs declaration, which is not the message the
claim states: the code says common PySpark function, not common function,
and Pythonic, not idiomatic. -/
theorem alias_message_counterexample :
    visit_call register dfFilterCall =
      .ok (register, [aliasDiagnostic dfFilterCall]) ∧
    (aliasDiagnostic dfFilterCall).template ≠
      "Calls a less desirable alias for a common function." ∧
    (aliasDiagnostic dfFilterCall).description ≠
      "Functions should use the most idiomatic, specific, and concise names when other aliases exist." :=
  ⟨rfl, by decide, by decide⟩

/-- Claim C3 as amended: every diagnostic the alias checker emits carries
the fixed message body "Calls a less desirable alias for a common PySpark
function." and the fixed rationale "PySpark functions should use the most
Pythonic, specific, and concise names when other aliases exist." -/
theorem alias_diagnostic_fixed_message
    (s s' : AliasCheckerState) (node : CallNode)
    (ds : List Diagnostic) (d : Diagnostic)
    (hok : visit_call s node = .ok (s', ds)) (hd : d ∈ ds) :
    d.template = "Calls a less desirable alias for a common PySpark function." ∧
    d.description =
      "PySpark functions should use the most Pythonic, specific, and concise names when other aliases exist." := by
  rcases hfunc : node.func with a | i | _
  · rw [visit_call_attr s node a hfunc] at hok
    by_cases h : a ∈ aliasKeys s.ALIASES
    · rw [if_pos h] at hok
      cases hok
      rcases List.mem_singleton.mp hd with rfl
      exact ⟨rfl, rfl⟩
    · rw [if_neg h] at hok
      cases hok
      exact absurd hd (List.not_mem_nil d)
  · simp [visit_call, hfunc, FuncExpr.attrnameOpt] at hok
  · simp [visit_call, hfunc, FuncExpr.attrnameOpt] at hok

/-- Witness for the amended C3 at the concrete call df.filter(). -/
theorem alias_diagnostic_fixed_message_witness :
    (aliasDiagnostic dfFilterCall).template =
      "Calls a less desirable alias for a common PySpark function." ∧
    (aliasDiagnostic dfFilterCall).description =
      "PySpark functions should use the most Pythonic, specific, and concise names when other aliases exist." :=
  alias_diagnostic_fixed_message register register dfFilterCall
    [aliasDiagnostic dfFilterCall] (aliasDiagnostic dfFilterCall) rfl
    (List.mem_singleton.mpr rfl)

/-- Claim C4: matching is by exact case-sensitive string equality only: a
call whose member name is not literally equal to a key of the alias table
(such as the case variant Filter) makes visit_call emit nothing. -/
theorem alias_matching_exact_only
    (s : AliasCheckerState) (node : CallNode) (a : String)
    (hfunc : node.func = FuncExpr.attribute a)
    (hnot : a ∉ aliasKeys s.ALIASES) :
    visit_call s node = .ok (s, []) := by
  rw [visit_call_attr s node a hfunc, if_neg hnot]

/-- Witness for C4: the call df.Filter(), differing from the key filter
only in case, emits nothing. -/
theorem alias_matching_exact_only_witness :
    visit_call register ⟨FuncExpr.attribute "Filter", 3, 4, 3, 15⟩ =
      .ok (register, []) :=
  alias_matching_exact_only register
    ⟨FuncExpr.attribute "Filter", 3, 4, 3, 15⟩ "Filter" rfl (by decide)

/-- Claim C5: every diagnostic emitted by visit_call carries the rule
identifier pyspark-less-desirable-function-alias, on every emission. -/
theorem alias_diagnostic_rule_identifier
    (s s' : AliasCheckerState) (node : CallNode)
    (ds : List Diagnostic) (d : Diagnostic)
    (hok : visit_call s node = .ok (s', ds)) (hd : d ∈ ds) :
    d.symbol = "pyspark-less-desirable-function-alias" ∧ d.symbol = NAME := by
  rcases hfunc : node.func with a | i | _
  · rw [visit_call_attr s node a hfunc] at hok
    by_cases h : a ∈ aliasKeys s.ALIASES
    · rw [if_pos h] at hok
      cases hok
      rcases List.mem_singleton.mp hd with rfl
      exact ⟨rfl, rfl⟩
    · rw [if_neg h] at hok
      cases hok
      exact absurd hd (List.not_mem_nil d)
  · simp [visit_call, hfunc, FuncExpr.attrnameOpt] at hok
  · simp [visit_call, hfunc, FuncExpr.attrnameOpt] at hok

/-- Witness for C5 at the concrete call df.groupBy(). -/
theorem alias_diagnostic_rule_identifier_witness :
    (aliasDiagnostic dfGroupByCall).symbol =
      "pyspark-less-desirable-function-alias" ∧
    (aliasDiagnostic dfGroupByCall).symbol = NAME :=
  alias_diagnostic_rule_identifier register register dfGroupByCall
    [aliasDiagnostic dfGroupByCall] (aliasDiagnostic dfGroupByCall) rfl
    (List.mem_singleton.mpr rfl)

/-- Claim C6: visiting df.filter(); df.groupBy(); df.where(); df.groupby()
in order emits a diagnostic on the first and second calls only, and none
on the third and fourth. -/
theorem alias_concrete_scenario :
    processCalls register
        [dfFilterCall, dfGroupByCall, dfWhereCall, dfGroupbyCall] =
      .ok (register,
        [aliasDiagnostic dfFilterCall, aliasDiagnostic dfGroupByCall]) := rfl

/-- Claim C8: the alias table never changes: registration constructs the
checker against the loaded ALIASES unchanged, __init__ leaves the table as
given, and every non-raising visit_call returns it untouched. -/
theorem aliases_table_read_only
    (m : List (String × String)) (s s' : AliasCheckerState)
    (node : CallNode) (ds : List Diagnostic)
    (hok : visit_call s node = .ok (s', ds)) :
    register.ALIASES = ALIASES ∧
    (PySparkFunctionAliasChecker.init m).ALIASES = m ∧
    s'.ALIASES = s.ALIASES := by
  refine ⟨rfl, rfl, ?_⟩
  rcases hfunc : node.func with a | i | _
  · rw [visit_call_attr s node a hfunc] at hok
    by_cases h : a ∈ aliasKeys s.ALIASES
    · rw [if_pos h] at hok
      cases hok
      rfl
    · rw [if_neg h] at hok
      cases hok
      rfl
  · simp [visit_call, hfunc, FuncExpr.attrnameOpt] at hok
  · simp [visit_call, hfunc, FuncExpr.attrnameOpt] at hok

/-- Witness for C8 at the concrete call df.filter(). -/
theorem aliases_table_read_only_witness :
    register.ALIASES = ALIASES ∧
    (PySparkFunctionAliasChecker.init ALIASES).ALIASES = ALIASES ∧
    register.ALIASES = register.ALIASES :=
  aliases_table_read_only ALIASES register register dfFilterCall
    [aliasDiagnostic dfFilterCall] rfl

/-- The observable outcome of a visit: the raised exception, or the
emitted diagnostics. -/
def resultDiagnostics
    (r : Except PyError (AliasCheckerState × List Diagnostic)) :
    Except PyError (List Diagnostic) :=
  match r with
  | .error e => .error e
  | .ok p => .ok p.2

/-- Claim C9: visit_call is a pure, deterministic function of the call
node and the alias table: two states agreeing on the alias table produce
the same outcome on the same node, and the checker state is returned
unchanged (no side effect beyond diagnostic emission). -/
theorem visit_call_pure
    (s₁ s₂ : AliasCheckerState) (node : CallNode)
    (h : s₁.ALIASES = s₂.ALIASES) :
    resultDiagnostics (visit_call s₁ node) =
      resultDiagnostics (visit_call s₂ node) ∧
    (∀ s' ds, visit_call s₁ node = .ok (s', ds) → s' = s₁) := by
  constructor
  · rcases hfunc : node.func with a | i | _
    · rw [visit_call_attr s₁ node a hfunc, visit_call_attr s₂ node a hfunc, h]
      by_cases hm : a ∈ aliasKeys s₂.ALIASES
      · rw [if_pos hm, if_pos hm]
        rfl
      · rw [if_neg hm, if_neg hm]
        rfl
    · simp [visit_call, hfunc, FuncExpr.attrnameOpt]
    · simp [visit_call, hfunc, FuncExpr.attrnameOpt]
  · intro s' ds hok
    rcases hfunc : node.func with a | i | _
    · rw [visit_call_attr s₁ node a hfunc] at hok
      by_cases hm : a ∈ aliasKeys s₁.ALIASES
      · rw [if_pos hm] at hok
        cases hok
        rfl
      · rw [if_neg hm] at hok
        cases hok
        rfl
    · simp [visit_call, hfunc, FuncExpr.attrnameOpt] at hok
    · simp [visit_call, hfunc, FuncExpr.attrnameOpt] at hok

/-- Witness for C9: two states sharing the alias table but with different
function stacks, at the concrete call df.filter(). -/
theorem visit_call_pure_witness :
    (resultDiagnostics (visit_call register dfFilterCall) =
      resultDiagnostics
        (visit_call ⟨ALIASES, [7]⟩ dfFilterCall)) ∧
    (∀ s' ds, visit_call register dfFilterCall = .ok (s', ds) →
      s' = register) :=
  visit_call_pure register ⟨ALIASES, [7]⟩ dfFilterCall rfl

/-- Claim C10: the only instance state, _function_stack, is initialized
empty by __init__ and left unchanged by every non-raising visit_call,
whether or not a diagnostic is emitted. -/
theorem function_stack_frame
    (m : List (String × String)) (s s' : AliasCheckerState)
    (node : CallNode) (ds : List Diagnostic)
    (hok : visit_call s node = .ok (s', ds)) :
    (PySparkFunctionAliasChecker.init m).function_stack = [] ∧
    s'.function_stack = s.function_stack := by
  refine ⟨rfl, ?_⟩
  rcases hfunc : node.func with a | i | _
  · rw [visit_call_attr s node a hfunc] at hok
    by_cases h : a ∈ aliasKeys s.ALIASES
    · rw [if_pos h] at hok
      cases hok
      rfl
    · rw [if_neg h] at hok
      cases hok
      rfl
  · simp [visit_call, hfunc, FuncExpr.attrnameOpt] at hok
  · simp [visit_call, hfunc, FuncExpr.attrnameOpt] at hok

/-- Witness for C10, covering an emitting call (df.groupBy()). -/
theorem function_stack_frame_witness :
    (PySparkFunctionAliasChecker.init ALIASES).function_stack = [] ∧
    register.function_stack = register.function_stack :=
  function_stack_frame ALIASES register register dfGroupByCall
    [aliasDiagnostic dfGroupByCall] rfl

/-- Modelled from the spec: the literal values the Unique-Return Checker
can observe on a return statement (checker.py, which defines
UniqueReturnChecker, is not among the sources; the spec asks for generic
type-and-value literal equality over numbers, strings, booleans and the
absent value). -/
inductive PyLiteral where
  | int (n : Int)
  | str (s : String)
  | bool (b : Bool)
  | noneLit
deriving DecidableEq, Repr

/-- A return-statement node: its literal value when statically
determinable (a variable or computed expression yields Option.none), and
its source position. -/
structure ReturnNode where
  value : Option PyLiteral
  line : Nat
  col_offset : Nat
  end_line : Nat
  end_col_offset : Nat
deriving DecidableEq, Repr

/-- The rule identifier of the Unique-Return Checker, as referenced by its
test file test_checker.py. -/
def URNAME : String := "non-unique-returns"

/-- Modelled from the spec: the fixed message of the Unique-Return
Checker. -/
def URMessage : String := "Non-unique return value within function."

/-- A diagnostic of the Unique-Return Checker: rule identifier, triggering
return node, fixed message. -/
structure ReturnDiagnostic where
  symbol : String
  node : ReturnNode
  template : String
deriving DecidableEq, Repr

/-- Modelled from the spec: the Unique-Return Checker's state, a stack of
sets of previously observed literal return values, one per lexical
function currently open (checker.py is missing from the sources). -/
structure UniqueReturnState where
  scopeStack : List (List PyLiteral)
deriving DecidableEq, Repr

/-- Modelled from the spec: construction starts with no function open. -/
def UniqueReturnChecker.init : UniqueReturnState := ⟨[]⟩

/-- Modelled from the spec: entering a function definition pushes a fresh
empty literal-value set onto the scope stack. -/
def visit_functiondef (s : UniqueReturnState) : UniqueReturnState :=
  ⟨[] :: s.scopeStack⟩

/-- Modelled from the spec: leaving a function pops and discards the
top-of-stack set. -/
def leave_functiondef (s : UniqueReturnState) : UniqueReturnState :=
  ⟨s.scopeStack.tail⟩

/-- Modelled from the spec: visit_return of the missing checker.py. A
return without a statically determinable literal is invisible to the rule.
A literal already present in the current function's set triggers exactly
one diagnostic on this node; a fresh literal is inserted silently. With no
function open the rule does not apply. -/
def visit_return (s : UniqueReturnState) (node : ReturnNode) :
    UniqueReturnState × List ReturnDiagnostic :=
  match node.value with
  | Option.none => (s, [])
  | some v =>
    match s.scopeStack with
    | [] => (s, [])
    | seen :: rest =>
      if v ∈ seen then (s, [⟨URNAME, node, URMessage⟩])
      else (⟨(v :: seen) :: rest⟩, [])

/-- The host traversal driving visit_return over the return statements of
a function body in source order, concatenating emitted diagnostics. -/
def processReturns (s : UniqueReturnState) :
    List ReturnNode → UniqueReturnState × List ReturnDiagnostic
  | [] => (s, [])
  | r :: rs =>
    let p := visit_return s r
    let q := processReturns p.1 rs
    (q.1, p.2 ++ q.2)

/-- The checker state reached after entering a function (over an ambient
stack rest) and visiting the first i return statements of its body. -/
def stateAt (rest : List (List PyLiteral)) (rs : List ReturnNode)
    (i : Nat) : UniqueReturnState :=
  (processReturns (visit_functiondef ⟨rest⟩) (rs.take i)).1

lemma processReturns_scopeStack (rs : List ReturnNode) :
    ∀ (seen : List PyLiteral) (rest : List (List PyLiteral)),
    ∃ seen',
      (processReturns ⟨seen :: rest⟩ rs).1.scopeStack = seen' :: rest ∧
      ∀ v, v ∈ seen' ↔ (v ∈ seen ∨ ∃ r ∈ rs, r.value = some v) := by
  induction rs with
  | nil =>
    intro seen rest
    exact ⟨seen, rfl, fun v => by simp [processReturns]⟩
  | cons r rs ih =>
    intro seen rest
    have hstep : (processReturns ⟨seen :: rest⟩ (r :: rs)).1 =
        (processReturns (visit_return ⟨seen :: rest⟩ r).1 rs).1 := rfl
    cases hv : r.value with
    | none =>
      have hvr : (visit_return ⟨seen :: rest⟩ r).1 = ⟨seen :: rest⟩ := by
        simp [visit_return, hv]
      obtain ⟨seen', h1, h2⟩ := ih seen rest
      refine ⟨seen', by rw [hstep, hvr]; exact h1, fun v => ?_⟩
      rw [h2 v]
      constructor
      · rintro (h | ⟨r', hr', hval⟩)
        · exact Or.inl h
        · exact Or.inr ⟨r', List.mem_cons_of_mem r hr', hval⟩
      · rintro (h | ⟨r', hr', hval⟩)
        · exact Or.inl h
        · rcases List.mem_cons.mp hr' with rfl | hr''
          · rw [hv] at hval
            cases hval
          · exact Or.inr ⟨r', hr'', hval⟩
    | some w =>
      by_cases hw : w ∈ seen
      · have hvr : (visit_return ⟨seen :: rest⟩ r).1 = ⟨seen :: rest⟩ := by
          simp [visit_return, hv, hw]
        obtain ⟨seen', h1, h2⟩ := ih seen rest
        refine ⟨seen', by rw [hstep, hvr]; exact h1, fun v => ?_⟩
        rw [h2 v]
        constructor
        · rintro (h | ⟨r', hr', hval⟩)
          · exact Or.inl h
          · exact Or.inr ⟨r', List.mem_cons_of_mem r hr', hval⟩
        · rintro (h | ⟨r', hr', hval⟩)
          · exact Or.inl h
          · rcases List.mem_cons.mp hr' with rfl | hr''
            · rw [hv] at hval
              cases hval
              exact Or.inl hw
            · exact Or.inr ⟨r', hr'', hval⟩
      · have hvr : (visit_return ⟨seen :: rest⟩ r).1 =
            ⟨(w :: seen) :: rest⟩ := by
          simp [visit_return, hv, hw]
        obtain ⟨seen', h1, h2⟩ := ih (w :: seen) rest
        refine ⟨seen', by rw [hstep, hvr]; exact h1, fun v => ?_⟩
        rw [h2 v]
        constructor
        · rintro (h | ⟨r', hr', hval⟩)
          · rcases List.mem_cons.mp h with rfl | hs'
            · exact Or.inr ⟨r, List.mem_cons_self r rs, hv⟩
            · exact Or.inl hs'
          · exact Or.inr ⟨r', List.mem_cons_of_mem r hr', hval⟩
        · rintro (h | ⟨r', hr', hval⟩)
          · exact Or.inl (List.mem_cons_of_mem w h)
          · rcases List.mem_cons.mp hr' with rfl | hr''
            · rw [hv] at hval
              cases hval
              exact Or.inl (List.mem_cons_self _ _)
            · exact Or.inr ⟨r', hr'', hval⟩

/-- Claim C7 (spec-modelled): within one function body visited in source
order, a return of a literal value is silent exactly when no earlier
return of that function carried the same literal, and a later return of an
already seen literal makes visit_return emit exactly one diagnostic
attached to that later return node. -/
theorem unique_return_first_silent_later_flagged
    (rest : List (List PyLiteral)) (rs : List ReturnNode)
    (i : Nat) (hi : i < rs.length) (v : PyLiteral)
    (hv : (rs.get ⟨i, hi⟩).value = some v) :
    ((∃ r ∈ rs.take i, r.value = some v) →
      (visit_return (stateAt rest rs i) (rs.get ⟨i, hi⟩)).2 =
        [⟨URNAME, rs.get ⟨i, hi⟩, URMessage⟩]) ∧
    ((¬ ∃ r ∈ rs.take i, r.value = some v) →
      (visit_return (stateAt rest rs i) (rs.get ⟨i, hi⟩)).2 = []) := by
  obtain ⟨seen', h1, h2⟩ := processReturns_scopeStack (rs.take i) [] rest
  have hmem : ∀ w, w ∈ seen' ↔ ∃ r ∈ rs.take i, r.value = some w := by
    intro w
    rw [h2 w]
    simp
  have hstate : stateAt rest rs i = ⟨seen' :: rest⟩ := by
    show (processReturns (visit_functiondef ⟨rest⟩) (rs.take i)).1 = _
    have h1' : (processReturns (visit_functiondef ⟨rest⟩)
        (rs.take i)).1.scopeStack = seen' :: rest := h1
    rw [← h1']
  have hv' : rs[i].value = some v := hv
  constructor
  · intro hex
    have hvseen : v ∈ seen' := (hmem v).mpr hex
    rw [hstate]
    simp [visit_return, hv', hvseen]
  · intro hex
    have hvseen : v ∉ seen' := fun h => hex ((hmem v).mp h)
    rw [hstate]
    simp [visit_return, hv', hvseen]

/-- The two return nodes of the test scenario in test_checker.py: return 5
inside the if, then return 5 at function level. -/
def returnA : ReturnNode := ⟨some (PyLiteral.int 5), 4, 8, 4, 16⟩

def returnB : ReturnNode := ⟨some (PyLiteral.int 5), 5, 4, 5, 12⟩

/-- Witness for C7 at the concrete body of test_finds_non_unique_ints:
the second return 5 is flagged with exactly one diagnostic on it. -/
theorem unique_return_first_silent_later_flagged_witness :
    (visit_return (stateAt [] [returnA, returnB] 1)
        (List.get [returnA, returnB] ⟨1, by decide⟩)).2 =
      [⟨URNAME, List.get [returnA, returnB] ⟨1, by decide⟩, URMessage⟩] :=
  (unique_return_first_silent_later_flagged [] [returnA, returnB] 1
    (by decide) (PyLiteral.int 5) rfl).1 ⟨returnA, by decide, rfl⟩

end PysparkStyleGuide
